import Mathlib

/-!
Verification of the Astana records store (src-tauri/src/db.rs and lib.rs).

The SQLite-backed store is shallowly embedded: the database file becomes an
explicit `DB` state (one list of rows per table plus the store-assigned rowid
counters and the ambient clock used for `CURRENT_TIMESTAMP`), each Rust
operation becomes a Lean function on that state, and fallible operations
return `Except`/`Option` errors.  `i64`/`i32` columns are modelled as `Int`.
SQL `COALESCE(?i, col)` becomes `Option.getD`/`Option.or`, `LIKE '%s%'`
becomes ASCII-case-insensitive substring containment (SQLite's default
collation; wildcard characters inside the search text are not modelled),
`ORDER BY` becomes a sort (`sortBy`), and `LIMIT`/`OFFSET` keep SQLite's
semantics (a negative limit means "no limit", a negative offset skips
nothing).
-/

namespace Astana

/-- Row of the `blocks` table (struct `Block` in db.rs). -/
structure Block where
  id : Int
  code : String
  description : Option String
  total_capacity : Int
  annual_fee : Int
  status : String
  created_at : String
  updated_at : String
deriving DecidableEq

/-- `UpdateBlockRequest` in db.rs: unset fields bind SQL NULL. -/
structure UpdateBlockRequest where
  code : Option String
  description : Option String
  total_capacity : Option Int
  annual_fee : Option Int
  status : Option String
deriving DecidableEq

/-- `BlockStats` in db.rs. -/
structure BlockStats where
  total_capacity : Int
  occupied : Int
  available : Int
deriving DecidableEq

/-- Row of the `graves` table (struct `Grave` in db.rs). -/
structure Grave where
  id : Int
  deceased_name : String
  block_id : Int
  number : String
  date_of_death : String
  burial_date : Option String
  notes : Option String
  created_at : String
  updated_at : String
deriving DecidableEq

/-- `GraveWithBlock` in db.rs: a grave joined with its block's code and fee. -/
structure GraveWithBlock where
  id : Int
  deceased_name : String
  block_id : Int
  number : String
  date_of_death : String
  burial_date : Option String
  notes : Option String
  created_at : String
  updated_at : String
  code : String
  annual_fee : Int
deriving DecidableEq

/-- `UpdateGraveRequest` in db.rs. -/
structure UpdateGraveRequest where
  deceased_name : Option String
  block_id : Option Int
  number : Option String
  date_of_death : Option String
  burial_date : Option String
  notes : Option String
deriving DecidableEq

/-- Row of the `heirs` table (struct `Heir` in db.rs).  `is_primary` is stored
as a 0/1 integer and read back as a boolean. -/
structure Heir where
  id : Int
  grave_id : Int
  order_number : Int
  full_name : String
  phone_number : Option String
  relationship : Option String
  address : Option String
  is_primary : Bool
  created_at : String
  updated_at : String
deriving DecidableEq

/-- `CreateHeirRequest` in db.rs. -/
structure CreateHeirRequest where
  grave_id : Int
  order_number : Int
  full_name : String
  phone_number : Option String
  relationship : Option String
  address : Option String
  is_primary : Bool
deriving DecidableEq

/-- `UpdateHeirRequest` in db.rs. -/
structure UpdateHeirRequest where
  full_name : Option String
  phone_number : Option String
  relationship : Option String
  address : Option String
  is_primary : Option Bool
deriving DecidableEq

/-- Row of the `payments` table (struct `Payment` in db.rs). -/
structure Payment where
  id : Int
  grave_id : Int
  year : Int
  payment_date : String
  amount : Int
  payment_method : Option String
  payment_proof : Option String
  paid_by : Option String
  notes : Option String
  created_at : String
  updated_at : String
deriving DecidableEq

/-- `CreatePaymentRequest` in db.rs. -/
structure CreatePaymentRequest where
  grave_id : Int
  year : Int
  payment_date : String
  amount : Int
  payment_method : Option String
  payment_proof : Option String
  paid_by : Option String
  notes : Option String
deriving DecidableEq

/-- Row of the `settings` table (struct `Settings` in db.rs). -/
structure Settings where
  id : Int
  foundation_name : String
  address : Option String
  phone : Option String
  email : Option String
  logo_path : Option String
  active_year : Int
  last_backup : Option String
  auto_backup : Bool
  created_at : String
  updated_at : String
deriving DecidableEq

/-- `UpdateSettingsRequest` in db.rs. -/
structure UpdateSettingsRequest where
  foundation_name : Option String
  address : Option String
  phone : Option String
  email : Option String
  logo_path : Option String
  active_year : Option Int
  auto_backup : Option Bool
deriving DecidableEq

/-- `DatabaseStats` in db.rs. -/
structure DatabaseStats where
  graves_count : Int
  heirs_count : Int
  payments_count : Int
  size_bytes : Int
deriving DecidableEq

/-- Errors returned by store operations.  The source returns formatted
`String`s; the two shapes the claims are about are kept structured:
`referentialConflict` corresponds to
`"Cannot delete block: {n} grave(s) still associated"` and carries that
count, `queryError` corresponds to the `"Failed to ..."` wrappers around a
failed single statement. -/
inductive DbError where
  | referentialConflict (dependent_count : Int)
  | queryError (op : String)
deriving DecidableEq

/-- The embedded database file: one list of rows per table, the
store-assigned rowid counters for tables the claims insert into, and the
ambient clock used for `CURRENT_TIMESTAMP` defaults. -/
structure DB where
  blocks : List Block
  graves : List Grave
  heirs : List Heir
  payments : List Payment
  settings : List Settings
  nextHeirId : Int
  nextPaymentId : Int
  now : String
deriving DecidableEq

/-- Insertion into a sorted list, the auxiliary step of `sortBy`. -/
def insertSorted {α : Type} (le : α → α → Bool) (x : α) : List α → List α
  | [] => [x]
  | y :: ys => if le x y then x :: y :: ys else y :: insertSorted le x ys

/-- Structural insertion sort, used to model SQL `ORDER BY` and Rust's
`sort_unstable` (only the ordering and multiset of the result matter to the
statements below). -/
def sortBy {α : Type} (le : α → α → Bool) : List α → List α
  | [] => []
  | x :: xs => insertSorted le x (sortBy le xs)

/-- `expr LIKE '%'||s||'%'` under SQLite's default collation: substring
containment that is case-insensitive on the ASCII range (`Char.toLower`
only folds `A`-`Z`, exactly like SQLite's default `upper`/`lower` folding).
Wildcard characters inside `s` itself are not modelled. -/
def likeContains (s hay : String) : Bool :=
  decide ((s.data.map Char.toLower) <:+: (hay.data.map Char.toLower))

/-- The dynamically composed WHERE clause of `Database::get_graves` /
`Database::count_graves`, evaluated on a `graves` row:
`(g.deceased_name LIKE ? OR g.number LIKE ?)` when a search text is given,
`g.block_id = ?` when a block filter is given. -/
def graveMatches (search : Option String) (block_id : Option Int) (g : Grave) : Bool :=
  (match search with
   | some s => likeContains s g.deceased_name || likeContains s g.number
   | none => true) &&
  (match block_id with
   | some bid => g.block_id == bid
   | none => true)

/-- The same WHERE clause evaluated on a joined grave-with-block row (the
filter columns are all grave columns). -/
def gwbMatches (search : Option String) (block_id : Option Int) (g : GraveWithBlock) : Bool :=
  (match search with
   | some s => likeContains s g.deceased_name || likeContains s g.number
   | none => true) &&
  (match block_id with
   | some bid => g.block_id == bid
   | none => true)

/-- Row mapper for `JOIN blocks b ON g.block_id = b.id` (selects
`g.*, b.code, b.annual_fee`). -/
def toGraveWithBlock (g : Grave) (b : Block) : GraveWithBlock :=
  { id := g.id, deceased_name := g.deceased_name, block_id := g.block_id,
    number := g.number, date_of_death := g.date_of_death,
    burial_date := g.burial_date, notes := g.notes,
    created_at := g.created_at, updated_at := g.updated_at,
    code := b.code, annual_fee := b.annual_fee }

-- ==================== BLOCKS ====================

/-- `Database::get_block_by_id`: `query_row ... WHERE id = ?1` with
`.optional()`. -/
def get_block_by_id (db : DB) (id : Int) : Option Block :=
  db.blocks.find? (fun b => b.id == id)

/-- The per-row effect of the `UPDATE blocks SET col = COALESCE(?, col)`
statement of `Database::update_block`. -/
def applyUpdateBlock (r : UpdateBlockRequest) (b : Block) : Block :=
  { b with
    code := r.code.getD b.code,
    description := r.description.or b.description,
    total_capacity := r.total_capacity.getD b.total_capacity,
    annual_fee := r.annual_fee.getD b.annual_fee,
    status := r.status.getD b.status }

/-- `Database::update_block`: coalesce-update of the row `WHERE id = ?6`;
zero rows affected when no row has that id. -/
def update_block (db : DB) (id : Int) (r : UpdateBlockRequest) : DB :=
  { db with blocks := db.blocks.map (fun b => if b.id == id then applyUpdateBlock r b else b) }

/-- `Database::delete_block`: counts `graves WHERE block_id = ?1`; if any
exist, returns the referential-conflict error carrying that count and leaves
the store untouched; otherwise deletes the block row.  The pair is
(post-state, error). -/
def delete_block (db : DB) (id : Int) : DB × Option DbError :=
  let grave_count : Int := ((db.graves.filter (fun g => g.block_id == id)).length : Int)
  if 0 < grave_count then
    (db, some (DbError.referentialConflict grave_count))
  else
    ({ db with blocks := db.blocks.filter (fun b => !(b.id == id)) }, none)

/-- `Database::get_block_stats`: reads `total_capacity` of the block row
(errors when the block does not exist, as `query_row` without `.optional()`
does), counts the graves in the block, and reports
`available = total_capacity - occupied` with plain `i64` subtraction. -/
def get_block_stats (db : DB) (block_id : Int) : Except DbError BlockStats :=
  match db.blocks.find? (fun b => b.id == block_id) with
  | none => Except.error (DbError.queryError "Failed to get block capacity")
  | some b =>
    let occupied : Int := ((db.graves.filter (fun g => g.block_id == block_id)).length : Int)
    Except.ok { total_capacity := b.total_capacity, occupied := occupied,
                available := b.total_capacity - occupied }

-- ==================== GRAVES ====================

/-- `Database::get_graves`: join with `blocks`, dynamic filters, then
`ORDER BY g.created_at DESC LIMIT ? OFFSET ?`.  SQLite treats a negative
LIMIT as "no limit" and a negative OFFSET as 0 (`Int.toNat` of a negative
number is 0). -/
def get_graves (db : DB) (search : Option String) (block_id : Option Int)
    (limit offset : Int) : List GraveWithBlock :=
  let joined := db.graves.flatMap
    (fun g => (db.blocks.filter (fun b => g.block_id == b.id)).map (toGraveWithBlock g))
  let filtered := joined.filter (gwbMatches search block_id)
  let sorted := sortBy (fun a b => decide (b.created_at ≤ a.created_at)) filtered
  let paged := sorted.drop offset.toNat
  if limit < 0 then paged else paged.take limit.toNat

/-- `Database::count_graves`: `SELECT COUNT(*) FROM graves g` with the same
dynamically composed filter clause (no join, no pagination). -/
def count_graves (db : DB) (search : Option String) (block_id : Option Int) : Int :=
  ((db.graves.filter (graveMatches search block_id)).length : Int)

/-- The per-row effect of `Database::update_grave`'s coalesce UPDATE.  The
source binds `block_id` as its decimal string; SQLite's INTEGER column
affinity converts it back to the same integer on storage, so the net effect
is the integer itself. -/
def applyUpdateGrave (r : UpdateGraveRequest) (g : Grave) : Grave :=
  { g with
    deceased_name := r.deceased_name.getD g.deceased_name,
    block_id := r.block_id.getD g.block_id,
    number := r.number.getD g.number,
    date_of_death := r.date_of_death.getD g.date_of_death,
    burial_date := r.burial_date.or g.burial_date,
    notes := r.notes.or g.notes }

/-- `Database::update_grave`: coalesce-update of the row `WHERE id = ?7`. -/
def update_grave (db : DB) (id : Int) (r : UpdateGraveRequest) : DB :=
  { db with graves := db.graves.map (fun g => if g.id == id then applyUpdateGrave r g else g) }

-- ==================== HEIRS ====================

/-- `Database::get_heirs_by_grave`: `WHERE grave_id = ?1 ORDER BY
order_number`. -/
def get_heirs_by_grave (db : DB) (grave_id : Int) : List Heir :=
  sortBy (fun a b => decide (a.order_number ≤ b.order_number))
    (db.heirs.filter (fun h => h.grave_id == grave_id))

/-- The row inserted by `Database::create_heir`: optional text fields
default to the empty string (stored non-NULL, hence read back as `some ""`),
`is_primary` is stored as 0/1, and the store assigns the next rowid and the
creation timestamps. -/
def mkHeirRow (nextId : Int) (now : String) (r : CreateHeirRequest) : Heir :=
  { id := nextId, grave_id := r.grave_id, order_number := r.order_number,
    full_name := r.full_name,
    phone_number := some (r.phone_number.getD ""),
    relationship := some (r.relationship.getD ""),
    address := some (r.address.getD ""),
    is_primary := r.is_primary,
    created_at := now, updated_at := now }

/-- `Database::create_heir`: INSERT returning `last_insert_rowid()`. -/
def create_heir (db : DB) (r : CreateHeirRequest) : DB × Int :=
  ({ db with
      heirs := db.heirs ++ [mkHeirRow db.nextHeirId db.now r],
      nextHeirId := db.nextHeirId + 1 },
   db.nextHeirId)

/-- The per-row effect of `Database::update_heir`'s coalesce UPDATE (the
source binds `is_primary` as the string "1"/"0"; INTEGER column affinity
stores it back as the same 0/1 value). -/
def applyUpdateHeir (r : UpdateHeirRequest) (h : Heir) : Heir :=
  { h with
    full_name := r.full_name.getD h.full_name,
    phone_number := r.phone_number.or h.phone_number,
    relationship := r.relationship.or h.relationship,
    address := r.address.or h.address,
    is_primary := r.is_primary.getD h.is_primary }

/-- `Database::update_heir`: coalesce-update of the row `WHERE id = ?6`. -/
def update_heir (db : DB) (id : Int) (r : UpdateHeirRequest) : DB :=
  { db with heirs := db.heirs.map (fun h => if h.id == id then applyUpdateHeir r h else h) }

/-- `Database::delete_heirs_by_grave`: `DELETE FROM heirs WHERE grave_id = ?1`. -/
def delete_heirs_by_grave (db : DB) (grave_id : Int) : DB :=
  { db with heirs := db.heirs.filter (fun h => !(h.grave_id == grave_id)) }

/-- The `update_grave_heirs` command (lib.rs): delete all heirs of the
grave, then insert each request of the list with its `grave_id` overwritten
to the target grave, in list order. -/
def update_grave_heirs (db : DB) (grave_id : Int) (heirs : List CreateHeirRequest) : DB :=
  heirs.foldl (fun d r => (create_heir d { r with grave_id := grave_id }).1)
    (delete_heirs_by_grave db grave_id)

-- ==================== PAYMENTS ====================

/-- `Database::get_payments_by_grave`: `WHERE grave_id = ?1 ORDER BY year
DESC`. -/
def get_payments_by_grave (db : DB) (grave_id : Int) : List Payment :=
  sortBy (fun a b => decide (b.year ≤ a.year))
    (db.payments.filter (fun p => p.grave_id == grave_id))

/-- The row inserted by `Database::create_payment`: `payment_method`
defaults to "cash", other optional text fields to the empty string. -/
def mkPaymentRow (nextId : Int) (now : String) (r : CreatePaymentRequest) : Payment :=
  { id := nextId, grave_id := r.grave_id, year := r.year,
    payment_date := r.payment_date, amount := r.amount,
    payment_method := some (r.payment_method.getD "cash"),
    payment_proof := some (r.payment_proof.getD ""),
    paid_by := some (r.paid_by.getD ""),
    notes := some (r.notes.getD ""),
    created_at := now, updated_at := now }

/-- `Database::create_payment`: INSERT returning `last_insert_rowid()`. -/
def create_payment (db : DB) (r : CreatePaymentRequest) : DB × Int :=
  ({ db with
      payments := db.payments ++ [mkPaymentRow db.nextPaymentId db.now r],
      nextPaymentId := db.nextPaymentId + 1 },
   db.nextPaymentId)

/-- The `update_payment` command (lib.rs): despite its name and `id`
argument it only calls `create_payment` ("Use create payment request as
update (simplified)"), so it inserts a brand-new row and never touches the
row named by `id`. -/
def update_payment (db : DB) (id : Int) (r : CreatePaymentRequest) : DB :=
  (create_payment db r).1

-- ==================== SETTINGS ====================

/-- The per-row effect of `Database::update_settings`' coalesce UPDATE
(`active_year` and `auto_backup` are bound as strings and converted back by
INTEGER column affinity). -/
def applyUpdateSettings (r : UpdateSettingsRequest) (s : Settings) : Settings :=
  { s with
    foundation_name := r.foundation_name.getD s.foundation_name,
    address := r.address.or s.address,
    phone := r.phone.or s.phone,
    email := r.email.or s.email,
    logo_path := r.logo_path.or s.logo_path,
    active_year := r.active_year.getD s.active_year,
    auto_backup := r.auto_backup.getD s.auto_backup }

/-- `Database::update_settings`: coalesce-update of the singleton row
`WHERE id = 1`. -/
def update_settings (db : DB) (r : UpdateSettingsRequest) : DB :=
  { db with settings := db.settings.map (fun s => if s.id == 1 then applyUpdateSettings r s else s) }

-- ==================== STATS ====================

/-- `Database::get_stats`.  Each of the four `query_row` calls can fail for
environmental reasons; a failed query is modelled as `none`.  The source
applies `unwrap_or(0)` to all four results - the size computation included -
and then always returns `Ok`. -/
def get_stats (graves_q heirs_q payments_q size_q : Option Int) : Except String DatabaseStats :=
  Except.ok { graves_count := graves_q.getD 0,
              heirs_count := heirs_q.getD 0,
              payments_count := payments_q.getD 0,
              size_bytes := size_q.getD 0 }

-- ==================== PAYMENT SUMMARY ====================

/-- `YearPaymentStatus` in lib.rs. -/
structure YearPaymentStatus where
  year : Int
  is_paid : Bool
  amount : Option Int
deriving DecidableEq

/-- `GravePaymentSummary` in lib.rs. -/
structure GravePaymentSummary where
  grave_id : Int
  deceased_name : String
  block_code : String
  number : String
  annual_fee : Int
  current_year_payment : Option Payment
  recent_payments : List YearPaymentStatus
deriving DecidableEq

/-- The `get_graves_with_payment_summary` command (lib.rs): for each grave
of the filtered, paginated listing, fetch its payments, look up the payment
for the requested year, and build the 5-entry window
`year-4 ..= year` (the Rust `for y in (current_year - 4)..=current_year`
loop, here `y = year - 4 + i` for `i = 0..4`). -/
def get_graves_with_payment_summary (db : DB) (search : Option String)
    (block_id : Option Int) (year : Int) (limit offset : Int) :
    List GravePaymentSummary :=
  (get_graves db search block_id limit offset).map (fun grave =>
    let payments := get_payments_by_grave db grave.id
    let payment_for_year := payments.find? (fun p => p.year == year)
    let recent_payments := (List.range 5).map (fun (i : Nat) =>
      ({ year := year - 4 + (i : Int),
         is_paid := (payments.find? (fun q => q.year == year - 4 + (i : Int))).isSome,
         amount := (payments.find? (fun q => q.year == year - 4 + (i : Int))).map
           (fun pay => pay.amount) } : YearPaymentStatus))
    { grave_id := grave.id, deceased_name := grave.deceased_name,
      block_code := grave.code, number := grave.number,
      annual_fee := grave.annual_fee,
      current_year_payment := payment_for_year,
      recent_payments := recent_payments })

-- ==================== EXPORT ====================

/-- A grave with its full heir list and payment history, as consumed by the
export command (`db::GraveExportData`; its declaration is in the missing
part of db.rs, its field use in lib.rs shows a `payments` list per grave). -/
structure GraveExportData where
  grave : Grave
  heirs : List Heir
  payments : List Payment
deriving DecidableEq

/-- `ExportGravesResult` in lib.rs. -/
structure ExportGravesResult where
  graves : List GraveExportData
  start_year : Int
  end_year : Int
deriving DecidableEq

/-- Modelled from the spec: `Database::get_all_graves_with_heirs` is called
by the `export_graves` command but its definition is not among the sources.
Per §4.3, `exportGravesWithHeirsAndPayments(searchText?, blockId?)` "returns
every matching grave joined with its full heir list and full payment
history" with the same filters as the grave listing. -/
def get_all_graves_with_heirs (db : DB) (search : Option String)
    (block_id : Option Int) : List GraveExportData :=
  (db.graves.filter (graveMatches search block_id)).map (fun g =>
    { grave := g, heirs := get_heirs_by_grave db g.id,
      payments := get_payments_by_grave db g.id })

/-- Ascending comparison used to model Rust's `years.sort_unstable()`. -/
def intAsc (a b : Int) : Bool := decide (a ≤ b)

/-- Rust `Vec::dedup`: remove consecutive duplicates. -/
def dedupAdj : List Int → List Int
  | [] => []
  | [x] => [x]
  | x :: y :: rest => if x = y then dedupAdj (y :: rest) else x :: dedupAdj (y :: rest)

/-- The year-collection loop of `export_graves` (lib.rs): every payment
year of every grave of the result set, in traversal order. -/
def exportYears (graves : List GraveExportData) : List Int :=
  (graves.map (fun g => g.payments.map (fun p => p.year))).flatten

/-- The year-range computation of `export_graves` (lib.rs) when no explicit
range is supplied: `(2022, 2026)` when there are no payment years at all,
otherwise `sort_unstable`, `dedup`, and take the first and last element. -/
def exportYearRange (years : List Int) : Int × Int :=
  if years.isEmpty then (2022, 2026)
  else
    let ys := dedupAdj (sortBy intAsc years)
    (ys.headD 0, ys.getLastD 0)

/-- The `export_graves` command (lib.rs): fetches the matching graves with
heirs and payments; when either bound of the year range is not supplied it
collects every payment year of the result set and uses the observed
min/max (or the fixed fallback); otherwise it echoes the supplied range. -/
def export_graves (db : DB) (search : Option String) (block_id : Option Int)
    (start_year end_year : Option Int) : ExportGravesResult :=
  let graves := get_all_graves_with_heirs db search block_id
  let yr :=
    if start_year.isNone || end_year.isNone then exportYearRange (exportYears graves)
    else (start_year.getD 0, end_year.getD 0)
  { graves := graves, start_year := yr.1, end_year := yr.2 }

-- ==================== AUXILIARY DEFINITIONS FOR THE THEOREMS ====================

/-- The caller-visible data of a stored heir row (everything except the
store-assigned id and timestamps). -/
def heirStoredData (h : Heir) : CreateHeirRequest :=
  { grave_id := h.grave_id, order_number := h.order_number,
    full_name := h.full_name, phone_number := h.phone_number,
    relationship := h.relationship, address := h.address,
    is_primary := h.is_primary }

/-- What a `CreateHeirRequest` looks like once stored by
`update_grave_heirs`: `grave_id` forced to the target grave and the optional
text fields defaulted to the (non-NULL) empty string. -/
def normalizeHeirReq (gid : Int) (r : CreateHeirRequest) : CreateHeirRequest :=
  { grave_id := gid, order_number := r.order_number,
    full_name := r.full_name,
    phone_number := some (r.phone_number.getD ""),
    relationship := some (r.relationship.getD ""),
    address := some (r.address.getD ""),
    is_primary := r.is_primary }

/-- The heir rows produced by inserting a request list in order, starting
from rowid `nextId`, all forced to grave `gid`. -/
def mkHeirRows (nextId : Int) (now : String) (gid : Int) :
    List CreateHeirRequest → List Heir
  | [] => []
  | r :: rs => mkHeirRow nextId now { r with grave_id := gid } :: mkHeirRows (nextId + 1) now gid rs

/-- `UpdateBlockRequest` with every field unset. -/
def emptyUpdateBlock : UpdateBlockRequest := ⟨none, none, none, none, none⟩

/-- `UpdateGraveRequest` with every field unset. -/
def emptyUpdateGrave : UpdateGraveRequest := ⟨none, none, none, none, none, none⟩

/-- `UpdateHeirRequest` with every field unset. -/
def emptyUpdateHeir : UpdateHeirRequest := ⟨none, none, none, none, none⟩

/-- `UpdateSettingsRequest` with every field unset. -/
def emptyUpdateSettings : UpdateSettingsRequest := ⟨none, none, none, none, none, none, none⟩

-- Concrete states used to instantiate the theorems (the scenario of spec
-- §8: block A1 with capacity 10 and one grave).

def blockA1 : Block :=
  { id := 1, code := "A1", description := some "", total_capacity := 10,
    annual_fee := 100000, status := "active",
    created_at := "2024-01-01 10:00:00", updated_at := "2024-01-01 10:00:00" }

def graveJohn : Grave :=
  { id := 1, deceased_name := "John Doe", block_id := 1, number := "A1-01",
    date_of_death := "2024-01-01", burial_date := some "", notes := some "",
    created_at := "2024-01-02 10:00:00", updated_at := "2024-01-02 10:00:00" }

def graveJane : Grave :=
  { id := 2, deceased_name := "Jane Doe", block_id := 1, number := "A1-02",
    date_of_death := "2024-02-01", burial_date := some "", notes := some "",
    created_at := "2024-02-03 10:00:00", updated_at := "2024-02-03 10:00:00" }

def payment2024 : Payment :=
  { id := 1, grave_id := 1, year := 2024, payment_date := "2024-03-01",
    amount := 100000, payment_method := some "cash", payment_proof := some "",
    paid_by := some "", notes := some "",
    created_at := "2024-03-01 10:00:00", updated_at := "2024-03-01 10:00:00" }

def payment2022 : Payment :=
  { id := 2, grave_id := 1, year := 2022, payment_date := "2022-03-01",
    amount := 90000, payment_method := some "cash", payment_proof := some "",
    paid_by := some "", notes := some "",
    created_at := "2022-03-01 10:00:00", updated_at := "2022-03-01 10:00:00" }

def dbW : DB :=
  { blocks := [blockA1], graves := [graveJohn], heirs := [],
    payments := [payment2024], settings := [],
    nextHeirId := 1, nextPaymentId := 2, now := "2024-06-01 10:00:00" }

def dbExport : DB :=
  { blocks := [blockA1], graves := [graveJohn], heirs := [],
    payments := [payment2024, payment2022], settings := [],
    nextHeirId := 1, nextPaymentId := 3, now := "2024-06-01 10:00:00" }

def dbPage : DB :=
  { blocks := [blockA1], graves := [graveJohn, graveJane], heirs := [],
    payments := [], settings := [],
    nextHeirId := 1, nextPaymentId := 1, now := "2024-06-01 10:00:00" }

/-- A block update request leaving `description` (among others) unset. -/
def codeOnlyUpdate : UpdateBlockRequest :=
  { code := some "B2", description := none, total_capacity := none,
    annual_fee := none, status := none }

def payReq2024 : CreatePaymentRequest :=
  { grave_id := 1, year := 2024, payment_date := "2024-04-01",
    amount := 100000, payment_method := none, payment_proof := none,
    paid_by := none, notes := none }

def summaryDefault : GravePaymentSummary :=
  { grave_id := 0, deceased_name := "", block_code := "", number := "",
    annual_fee := 0, current_year_payment := none, recent_payments := [] }

-- ==================== THEOREMS ====================

/-- C1: for every block that exists in the store, `delete_block` fails with
the referential-conflict error carrying the count of dependent graves when
at least one grave references the block - and the block remains present and
queryable in the resulting state - while with no referencing grave the
delete succeeds and removes the block. -/
theorem delete_block_guard_spec (db : DB) (id : Int) (b : Block)
    (hb : get_block_by_id db id = some b) :
    (0 < ((db.graves.filter (fun g => g.block_id == id)).length : Int) →
      (delete_block db id).2 =
        some (DbError.referentialConflict
          ((db.graves.filter (fun g => g.block_id == id)).length : Int)) ∧
      get_block_by_id (delete_block db id).1 id = some b) ∧
    (((db.graves.filter (fun g => g.block_id == id)).length : Int) = 0 →
      (delete_block db id).2 = none ∧
      get_block_by_id (delete_block db id).1 id = none) := by
  constructor
  · intro h
    have hif : delete_block db id =
        (db, some (DbError.referentialConflict
          ((db.graves.filter (fun g => g.block_id == id)).length : Int))) := by
      simp only [delete_block]
      rw [if_pos h]
    rw [hif]
    exact ⟨rfl, hb⟩
  · intro h
    have hif : delete_block db id =
        ({ db with blocks := db.blocks.filter (fun x => !(x.id == id)) }, none) := by
      simp only [delete_block]
      rw [if_neg (by omega)]
    rw [hif]
    refine ⟨rfl, ?_⟩
    rw [get_block_by_id, List.find?_eq_none]
    intro x hx
    have hxm := (List.mem_filter.mp hx).2
    simpa using hxm

/-- Witness for C1 on the §8 scenario state: one grave references block 1,
so the delete is refused with count 1 and the block is still queryable. -/
theorem delete_block_guard_witness :
    (delete_block dbW 1).2 = some (DbError.referentialConflict 1) ∧
    get_block_by_id (delete_block dbW 1).1 1 = some blockA1 := by
  have h := (delete_block_guard_spec dbW 1 blockA1 rfl).1 (by decide)
  exact h

/-- C2: calling each partial update operation with every optional field
unset leaves the store - hence every field of every row - unchanged. -/
theorem update_all_unset_identity (db : DB) (id : Int) :
    update_block db id emptyUpdateBlock = db ∧
    update_grave db id emptyUpdateGrave = db ∧
    update_heir db id emptyUpdateHeir = db ∧
    update_settings db emptyUpdateSettings = db := by
  refine ⟨?_, ?_, ?_, ?_⟩
  · simp [update_block, applyUpdateBlock, emptyUpdateBlock]
  · simp [update_grave, applyUpdateGrave, emptyUpdateGrave]
  · simp [update_heir, applyUpdateHeir, emptyUpdateHeir]
  · simp [update_settings, applyUpdateSettings, emptyUpdateSettings]

/-- C6 counterexample: with all three counts succeeding and the size
computation failing, `get_stats` still returns `Ok` with the size degraded
to zero - the size failure is not surfaced as an error, contrary to the
claim. -/
theorem get_stats_size_failure_not_surfaced :
    get_stats (some 1) (some 2) (some 3) none =
      Except.ok { graves_count := 1, heirs_count := 2, payments_count := 3,
                  size_bytes := 0 } := rfl

/-- C6 (amended): `get_stats` returns the row counts and the on-disk size
when the queries succeed, and any failing query - the individual counts and
the size computation alike - degrades to zero; the operation itself always
succeeds. -/
theorem get_stats_degrades_spec (g h p sz : Int) (gq hq pq : Option Int) :
    get_stats (some g) (some h) (some p) (some sz) =
      Except.ok { graves_count := g, heirs_count := h, payments_count := p,
                  size_bytes := sz } ∧
    get_stats gq hq pq none =
      Except.ok { graves_count := gq.getD 0, heirs_count := hq.getD 0,
                  payments_count := pq.getD 0, size_bytes := 0 } ∧
    get_stats none none none (some sz) =
      Except.ok { graves_count := 0, heirs_count := 0, payments_count := 0,
                  size_bytes := sz } :=
  ⟨rfl, rfl, rfl⟩

/-- C8: for every existing block, `get_block_stats` reports the number of
graves whose `block_id` is the block's id as `occupied` and
`total_capacity - occupied` as `available`, with exact integer subtraction;
`available` is negative whenever occupancy exceeds capacity. -/
theorem block_stats_spec (db : DB) (block_id : Int) (b : Block)
    (hb : db.blocks.find? (fun x => x.id == block_id) = some b) :
    get_block_stats db block_id =
      Except.ok { total_capacity := b.total_capacity,
                  occupied := ((db.graves.filter (fun g => g.block_id == block_id)).length : Int),
                  available := b.total_capacity -
                    ((db.graves.filter (fun g => g.block_id == block_id)).length : Int) } ∧
    (b.total_capacity < ((db.graves.filter (fun g => g.block_id == block_id)).length : Int) →
      b.total_capacity - ((db.graves.filter (fun g => g.block_id == block_id)).length : Int) < 0) := by
  constructor
  · unfold get_block_stats
    rw [hb]
  · omega

/-- Witness for C8 on the §8 scenario: capacity 10, one grave, so
`{total_capacity := 10, occupied := 1, available := 9}`. -/
theorem block_stats_witness :
    get_block_stats dbW 1 =
      Except.ok { total_capacity := 10, occupied := 1, available := 9 } :=
  (block_stats_spec dbW 1 blockA1 rfl).1

/-- C9: `update_block` on an id with no corresponding row is a silent
no-op (the store is completely unchanged and no error is reported), and on
an existing row every unspecified field keeps its current value while the
updated row stays in the table. -/
theorem update_block_partial_spec (db : DB) (id : Int) (r : UpdateBlockRequest) :
    ((∀ b ∈ db.blocks, b.id ≠ id) → update_block db id r = db) ∧
    (∀ b : Block,
      (r.code = none → (applyUpdateBlock r b).code = b.code) ∧
      (r.description = none → (applyUpdateBlock r b).description = b.description) ∧
      (r.total_capacity = none → (applyUpdateBlock r b).total_capacity = b.total_capacity) ∧
      (r.annual_fee = none → (applyUpdateBlock r b).annual_fee = b.annual_fee) ∧
      (r.status = none → (applyUpdateBlock r b).status = b.status)) ∧
    (∀ b ∈ db.blocks, b.id = id → applyUpdateBlock r b ∈ (update_block db id r).blocks) := by
  refine ⟨?_, ?_, ?_⟩
  · intro h
    unfold update_block
    have hm : db.blocks.map (fun b => if b.id == id then applyUpdateBlock r b else b)
        = db.blocks.map (fun b => b) :=
      List.map_congr_left (fun b hb => by simp [h b hb])
    rw [hm, List.map_id']
  · intro b
    refine ⟨?_, ?_, ?_, ?_, ?_⟩ <;> (intro h; simp [applyUpdateBlock, h])
  · intro b hb hid
    exact List.mem_map.mpr ⟨b, hb, by simp [hid]⟩

/-- Witness for C9: updating the absent block id 2 leaves the store
unchanged, and an update request with `description` unset preserves the
stored description. -/
theorem update_block_partial_witness :
    update_block dbW 2 codeOnlyUpdate = dbW ∧
    (applyUpdateBlock codeOnlyUpdate blockA1).description = blockA1.description := by
  have h := update_block_partial_spec dbW 2 codeOnlyUpdate
  exact ⟨h.1 (by decide), (h.2.1 blockA1).2.1 rfl⟩

/-- C10: `update_payment` never modifies the row named by `id`: it appends
a brand-new payment row built from the request under a fresh store-assigned
identifier (every pre-existing row is still present, and none of them has
the new row's id), and the number of rows for the request's
`(grave_id, year)` pair grows by one - so an "update" of an existing pair
produces a duplicate row. -/
theorem update_payment_creates_new_row (db : DB) (id : Int) (r : CreatePaymentRequest)
    (hfresh : ∀ p ∈ db.payments, p.id < db.nextPaymentId) :
    (update_payment db id r).payments =
      db.payments ++ [mkPaymentRow db.nextPaymentId db.now r] ∧
    (mkPaymentRow db.nextPaymentId db.now r).id = db.nextPaymentId ∧
    (∀ p ∈ db.payments, p ∈ (update_payment db id r).payments) ∧
    (∀ p ∈ db.payments, p.id ≠ (mkPaymentRow db.nextPaymentId db.now r).id) ∧
    ((update_payment db id r).payments.filter
        (fun p => p.grave_id == r.grave_id && p.year == r.year)).length
      = (db.payments.filter
          (fun p => p.grave_id == r.grave_id && p.year == r.year)).length + 1 := by
  refine ⟨rfl, rfl, ?_, ?_, ?_⟩
  · intro p hp
    show p ∈ db.payments ++ [mkPaymentRow db.nextPaymentId db.now r]
    exact List.mem_append_left _ hp
  · intro p hp heq
    have hlt := hfresh p hp
    rw [heq] at hlt
    simp [mkPaymentRow] at hlt
  · show (List.filter _ (db.payments ++ [mkPaymentRow db.nextPaymentId db.now r])).length = _
    rw [List.filter_append]
    simp [mkPaymentRow]

/-- Witness for C10: "updating" payment 1 of the scenario state inserts a
second row for the same `(grave_id, year)` pair. -/
theorem update_payment_witness :
    ((update_payment dbW 1 payReq2024).payments.filter
        (fun p => p.grave_id == payReq2024.grave_id && p.year == payReq2024.year)).length
      = (dbW.payments.filter
          (fun p => p.grave_id == payReq2024.grave_id && p.year == payReq2024.year)).length + 1 :=
  (update_payment_creates_new_row dbW 1 payReq2024 (by decide)).2.2.2.2

-- Helper lemmas about the sort, heads, last elements and `dedupAdj`.

theorem insertSorted_perm {α : Type} (le : α → α → Bool) (x : α) :
    ∀ l : List α, (insertSorted le x l).Perm (x :: l)
  | [] => List.Perm.refl _
  | y :: ys => by
      unfold insertSorted
      by_cases h : le x y
      · rw [if_pos h]
      · rw [if_neg h]
        exact ((insertSorted_perm le x ys).cons y).trans (List.Perm.swap x y ys)

theorem sortBy_perm {α : Type} (le : α → α → Bool) : ∀ l : List α, (sortBy le l).Perm l
  | [] => List.Perm.refl _
  | x :: xs =>
      (insertSorted_perm le x (sortBy le xs)).trans ((sortBy_perm le xs).cons x)

theorem mem_insertSorted {α : Type} (le : α → α → Bool) (x a : α) (l : List α)
    (h : a ∈ insertSorted le x l) : a = x ∨ a ∈ l := by
  have := (insertSorted_perm le x l).mem_iff.mp h
  simpa using this

theorem insertSorted_pairwise {α : Type} (le : α → α → Bool)
    (htrans : ∀ a b c, le a b = true → le b c = true → le a c = true)
    (htotal : ∀ a b, (le a b || le b a) = true) (x : α) :
    ∀ l : List α, List.Pairwise (fun a b => le a b = true) l →
      List.Pairwise (fun a b => le a b = true) (insertSorted le x l)
  | [], _ => List.pairwise_singleton _ x
  | y :: ys, h => by
      unfold insertSorted
      have hy := (List.pairwise_cons.mp h).1
      have hys := (List.pairwise_cons.mp h).2
      by_cases hxy : le x y
      · rw [if_pos hxy]
        refine List.pairwise_cons.mpr ⟨?_, h⟩
        intro a ha
        rcases List.mem_cons.mp ha with rfl | ha
        · exact hxy
        · exact htrans x y a hxy (hy a ha)
      · rw [if_neg hxy]
        refine List.pairwise_cons.mpr ⟨?_, insertSorted_pairwise le htrans htotal x ys hys⟩
        intro a ha
        rcases mem_insertSorted le x a ys ha with rfl | ha
        · have := htotal a y
          rcases Bool.or_eq_true_iff.mp this with h1 | h1
          · exact absurd h1 hxy
          · exact h1
        · exact hy a ha

theorem sortBy_pairwise {α : Type} (le : α → α → Bool)
    (htrans : ∀ a b c, le a b = true → le b c = true → le a c = true)
    (htotal : ∀ a b, (le a b || le b a) = true) :
    ∀ l : List α, List.Pairwise (fun a b => le a b = true) (sortBy le l)
  | [] => List.Pairwise.nil
  | x :: xs =>
      insertSorted_pairwise le htrans htotal x (sortBy le xs)
        (sortBy_pairwise le htrans htotal xs)

theorem headD_mem {α : Type} (l : List α) (d : α) (h : l ≠ []) : l.headD d ∈ l := by
  cases l with
  | nil => exact absurd rfl h
  | cons x xs => exact List.mem_cons_self x xs

theorem getLastD_mem {α : Type} : ∀ (l : List α) (d : α), l ≠ [] → l.getLastD d ∈ l
  | [x], _, _ => List.mem_cons_self x []
  | x :: y :: r, d, _ => by
      rw [List.getLastD_cons]
      exact List.mem_cons_of_mem x (getLastD_mem (y :: r) x (by simp))

theorem sorted_headD_le (l : List Int) (d : Int)
    (hs : List.Pairwise (fun a b : Int => a ≤ b) l) : ∀ y ∈ l, l.headD d ≤ y := by
  cases l with
  | nil => intro y hy; simp at hy
  | cons x xs =>
      intro y hy
      rcases List.mem_cons.mp hy with h | h
      · simp [h]
      · exact (List.pairwise_cons.mp hs).1 y h

theorem sorted_le_getLastD : ∀ (l : List Int) (d : Int),
    List.Pairwise (fun a b : Int => a ≤ b) l → ∀ y ∈ l, y ≤ l.getLastD d
  | [x], d, _, y, hy => by
      rcases List.mem_cons.mp hy with h | h
      · simp [h]
      · simp at h
  | x :: z :: zs, d, hp, y, hy => by
      rw [List.getLastD_cons]
      rcases List.mem_cons.mp hy with h | h
      · subst h
        have hmem := getLastD_mem (z :: zs) y (by simp)
        exact (List.pairwise_cons.mp hp).1 _ hmem
      · exact sorted_le_getLastD (z :: zs) x (List.pairwise_cons.mp hp).2 y h

theorem dedupAdj_headD : ∀ (l : List Int) (d : Int), (dedupAdj l).headD d = l.headD d
  | [], _ => rfl
  | [_], _ => rfl
  | x :: y :: r, d => by
      by_cases h : x = y
      · simp only [dedupAdj, if_pos h]
        rw [dedupAdj_headD (y :: r) d]
        simp [h]
      · simp only [dedupAdj, if_neg h]
        rfl

theorem dedupAdj_getLastD : ∀ (l : List Int) (d : Int), (dedupAdj l).getLastD d = l.getLastD d
  | [], _ => rfl
  | [_], _ => rfl
  | x :: y :: r, d => by
      by_cases h : x = y
      · simp only [dedupAdj, if_pos h]
        rw [dedupAdj_getLastD (y :: r) d]
        simp [List.getLastD_cons]
      · simp only [dedupAdj, if_neg h]
        rw [List.getLastD_cons, dedupAdj_getLastD (y :: r) x, List.getLastD_cons x y r,
          List.getLastD_cons d x (y :: r), List.getLastD_cons x y r]

theorem exportYearRange_min_max (years : List Int) (h : years ≠ []) :
    (exportYearRange years).1 ∈ years ∧ (∀ y ∈ years, (exportYearRange years).1 ≤ y) ∧
    (exportYearRange years).2 ∈ years ∧ (∀ y ∈ years, y ≤ (exportYearRange years).2) := by
  have hne : years.isEmpty = false := by
    cases years with
    | nil => exact absurd rfl h
    | cons a l => rfl
  have hperm : (sortBy intAsc years).Perm years := sortBy_perm intAsc years
  have hSne : sortBy intAsc years ≠ [] := by
    intro hnil
    have hl := hperm.length_eq
    rw [hnil] at hl
    exact h (List.length_eq_zero.mp hl.symm)
  have htrans : ∀ a b c : Int, intAsc a b = true → intAsc b c = true → intAsc a c = true := by
    intro a b c hab hbc
    simp only [intAsc, decide_eq_true_eq] at *
    omega
  have htotal : ∀ a b : Int, (intAsc a b || intAsc b a) = true := by
    intro a b
    simp only [intAsc, Bool.or_eq_true, decide_eq_true_eq]
    omega
  have hsorted : List.Pairwise (fun a b : Int => a ≤ b) (sortBy intAsc years) :=
    (sortBy_pairwise intAsc htrans htotal years).imp
      (fun hab => by simpa [intAsc] using hab)
  unfold exportYearRange
  rw [hne]
  simp only [Bool.false_eq_true, if_false]
  rw [dedupAdj_headD, dedupAdj_getLastD]
  refine ⟨?_, ?_, ?_, ?_⟩
  · exact hperm.mem_iff.mp (headD_mem _ 0 hSne)
  · intro y hy
    exact sorted_headD_le _ 0 hsorted y (hperm.mem_iff.mpr hy)
  · exact hperm.mem_iff.mp (getLastD_mem _ 0 hSne)
  · intro y hy
    exact sorted_le_getLastD _ 0 hsorted y (hperm.mem_iff.mpr hy)

/-- C4: when no explicit year range is supplied, `export_graves` reports as
`start_year`/`end_year` the minimum and maximum payment year observed over
all payments of all graves of the result set, and the fixed fallback range
(2022, 2026) when the result set has no payments at all. -/
theorem export_year_range_spec (db : DB) (search : Option String) (block_id : Option Int)
    (start_year end_year : Option Int) (h : start_year = none ∨ end_year = none) :
    (exportYears (get_all_graves_with_heirs db search block_id) = [] →
      (export_graves db search block_id start_year end_year).start_year = 2022 ∧
      (export_graves db search block_id start_year end_year).end_year = 2026) ∧
    (exportYears (get_all_graves_with_heirs db search block_id) ≠ [] →
      (export_graves db search block_id start_year end_year).start_year
          ∈ exportYears (get_all_graves_with_heirs db search block_id) ∧
      (∀ y ∈ exportYears (get_all_graves_with_heirs db search block_id),
        (export_graves db search block_id start_year end_year).start_year ≤ y) ∧
      (export_graves db search block_id start_year end_year).end_year
          ∈ exportYears (get_all_graves_with_heirs db search block_id) ∧
      (∀ y ∈ exportYears (get_all_graves_with_heirs db search block_id),
        y ≤ (export_graves db search block_id start_year end_year).end_year)) := by
  have hcond : (start_year.isNone || end_year.isNone) = true := by
    rcases h with h | h <;> simp [h]
  have hE : export_graves db search block_id start_year end_year =
      { graves := get_all_graves_with_heirs db search block_id,
        start_year :=
          (exportYearRange (exportYears (get_all_graves_with_heirs db search block_id))).1,
        end_year :=
          (exportYearRange (exportYears (get_all_graves_with_heirs db search block_id))).2 } := by
    unfold export_graves
    rw [hcond]
    rfl
  constructor
  · intro hnil
    rw [hE]
    simp only []
    rw [hnil]
    exact ⟨rfl, rfl⟩
  · intro hne
    have hmm := exportYearRange_min_max _ hne
    rw [hE]
    exact ⟨hmm.1, hmm.2.1, hmm.2.2.1, hmm.2.2.2⟩

-- Helper lemmas for the payment lookups.

theorem mem_get_payments_iff (db : DB) (gid : Int) (p : Payment) :
    p ∈ get_payments_by_grave db gid ↔ p ∈ db.payments ∧ p.grave_id = gid := by
  unfold get_payments_by_grave
  rw [(sortBy_perm _ _).mem_iff, List.mem_filter]
  simp

theorem find?_payments_isSome_iff (db : DB) (gid y : Int) :
    ((get_payments_by_grave db gid).find? (fun q => q.year == y)).isSome = true ↔
      ∃ p ∈ db.payments, p.grave_id = gid ∧ p.year = y := by
  rw [List.find?_isSome]
  constructor
  · rintro ⟨q, hq, hqy⟩
    have hm := (mem_get_payments_iff db gid q).mp hq
    exact ⟨q, hm.1, hm.2, by simpa using hqy⟩
  · rintro ⟨p, hp, hpg, hpy⟩
    exact ⟨p, (mem_get_payments_iff db gid p).mpr ⟨hp, hpg⟩, by simpa using hpy⟩

theorem find?_payments_eq_some (db : DB) (gid y : Int) (p : Payment)
    (h : (get_payments_by_grave db gid).find? (fun q => q.year == y) = some p) :
    p ∈ db.payments ∧ p.grave_id = gid ∧ p.year = y := by
  have hm := (mem_get_payments_iff db gid p).mp (List.mem_of_find?_eq_some h)
  have hy := List.find?_some h
  exact ⟨hm.1, hm.2, by simpa using hy⟩

/-- C3: every summary produced by `get_graves_with_payment_summary`
corresponds position-wise to the filtered paginated grave listing; its
current-year payment is present exactly when the grave has a payment with
the target year (and is such a payment); and its recent-payments window has
exactly 5 entries for the years `targetYear-4 .. targetYear` in that order,
each marked paid precisely when the grave has a payment with that year and
carrying such a payment's amount when paid (no amount otherwise). -/
theorem payment_summary_window_spec (db : DB) (search : Option String)
    (block_id : Option Int) (year : Int) (limit offset : Int) :
    (get_graves_with_payment_summary db search block_id year limit offset).map
        (fun s => s.grave_id)
      = (get_graves db search block_id limit offset).map (fun g => g.id) ∧
    ∀ s ∈ get_graves_with_payment_summary db search block_id year limit offset,
      (s.current_year_payment.isSome = true ↔
        ∃ p ∈ db.payments, p.grave_id = s.grave_id ∧ p.year = year) ∧
      (∀ p : Payment, s.current_year_payment = some p →
        p ∈ db.payments ∧ p.grave_id = s.grave_id ∧ p.year = year) ∧
      s.recent_payments.length = 5 ∧
      (∀ (i : Nat) (hi : i < s.recent_payments.length),
        (s.recent_payments.get ⟨i, hi⟩).year = year - 4 + (i : Int) ∧
        ((s.recent_payments.get ⟨i, hi⟩).is_paid = true ↔
          ∃ p ∈ db.payments, p.grave_id = s.grave_id ∧ p.year = year - 4 + (i : Int)) ∧
        ((s.recent_payments.get ⟨i, hi⟩).is_paid = true →
          ∃ p ∈ db.payments, p.grave_id = s.grave_id ∧ p.year = year - 4 + (i : Int) ∧
            (s.recent_payments.get ⟨i, hi⟩).amount = some p.amount) ∧
        ((s.recent_payments.get ⟨i, hi⟩).is_paid = false →
          (s.recent_payments.get ⟨i, hi⟩).amount = none)) := by
  constructor
  · unfold get_graves_with_payment_summary
    rw [List.map_map]
    rfl
  · intro s hs
    obtain ⟨g, hg, rfl⟩ := List.mem_map.mp hs
    refine ⟨find?_payments_isSome_iff db g.id year,
      fun p hp => find?_payments_eq_some db g.id year p hp, rfl, ?_⟩
    intro i hi
    have hget : ∀ (hj : i < (((List.range 5).map (fun (j : Nat) =>
        ({ year := year - 4 + (j : Int),
           is_paid := ((get_payments_by_grave db g.id).find?
             (fun q => q.year == year - 4 + (j : Int))).isSome,
           amount := ((get_payments_by_grave db g.id).find?
             (fun q => q.year == year - 4 + (j : Int))).map
               (fun pay => pay.amount) } : YearPaymentStatus))).length)),
        (((List.range 5).map (fun (j : Nat) =>
          ({ year := year - 4 + (j : Int),
             is_paid := ((get_payments_by_grave db g.id).find?
               (fun q => q.year == year - 4 + (j : Int))).isSome,
             amount := ((get_payments_by_grave db g.id).find?
               (fun q => q.year == year - 4 + (j : Int))).map
                 (fun pay => pay.amount) } : YearPaymentStatus))).get ⟨i, hj⟩)
        = ({ year := year - 4 + (i : Int),
             is_paid := ((get_payments_by_grave db g.id).find?
               (fun q => q.year == year - 4 + (i : Int))).isSome,
             amount := ((get_payments_by_grave db g.id).find?
               (fun q => q.year == year - 4 + (i : Int))).map
                 (fun pay => pay.amount) } : YearPaymentStatus) := by
      intro hj
      rw [List.get_eq_getElem, List.getElem_map, List.getElem_range]
    rw [hget hi]
    refine ⟨rfl, find?_payments_isSome_iff db g.id (year - 4 + (i : Int)), ?_, ?_⟩
    · intro hpaid
      obtain ⟨q, hq⟩ := Option.isSome_iff_exists.mp hpaid
      have hqp := find?_payments_eq_some db g.id (year - 4 + (i : Int)) q hq
      refine ⟨q, hqp.1, hqp.2.1, hqp.2.2, ?_⟩
      show ((get_payments_by_grave db g.id).find?
        (fun q => q.year == year - 4 + (i : Int))).map (fun pay => pay.amount) = some q.amount
      rw [hq]
      rfl
    · intro hnp
      have hnp' : ((get_payments_by_grave db g.id).find?
          (fun q => q.year == year - 4 + (i : Int))).isSome = false := hnp
      show ((get_payments_by_grave db g.id).find?
        (fun q => q.year == year - 4 + (i : Int))).map (fun pay => pay.amount) = none
      cases hfd : (get_payments_by_grave db g.id).find?
          (fun q => q.year == year - 4 + (i : Int)) with
      | none => rfl
      | some q => rw [hfd] at hnp'; simp at hnp'

/-- Witness for C3 on the scenario state: the single summary row has a
5-entry window and its 2024 payment present. -/
theorem payment_summary_witness :
    ((get_graves_with_payment_summary dbW none none 2024 10 0).headD
        summaryDefault).recent_payments.length = 5 ∧
    ((get_graves_with_payment_summary dbW none none 2024 10 0).headD
        summaryDefault).current_year_payment.isSome = true := by
  have h := (payment_summary_window_spec dbW none none 2024 10 0).2
    ((get_graves_with_payment_summary dbW none none 2024 10 0).headD summaryDefault)
    (by decide)
  exact ⟨h.2.2.1, h.1.mpr (by decide)⟩

-- Helper lemmas for the grave listing / count consistency.

theorem gwbMatches_toGraveWithBlock (search : Option String) (block_id : Option Int)
    (g : Grave) (b : Block) :
    gwbMatches search block_id (toGraveWithBlock g b) = graveMatches search block_id g := by
  cases search <;> cases block_id <;> rfl

theorem filter_join_graves (search : Option String) (block_id : Option Int)
    (blocks : List Block) : ∀ gs : List Grave,
    (gs.flatMap (fun g => (blocks.filter (fun b => g.block_id == b.id)).map
        (toGraveWithBlock g))).filter (gwbMatches search block_id)
      = (gs.filter (graveMatches search block_id)).flatMap
          (fun g => (blocks.filter (fun b => g.block_id == b.id)).map (toGraveWithBlock g))
  | [] => rfl
  | g :: gs => by
      rw [List.flatMap_cons, List.filter_append, filter_join_graves search block_id blocks gs,
        List.filter_cons]
      by_cases h : graveMatches search block_id g = true
      · rw [if_pos h, List.flatMap_cons]
        congr 1
        rw [List.filter_map]
        have hsame : (blocks.filter (fun b => g.block_id == b.id)).filter
            (gwbMatches search block_id ∘ toGraveWithBlock g)
            = blocks.filter (fun b => g.block_id == b.id) := by
          apply List.filter_eq_self.mpr
          intro b _
          show gwbMatches search block_id (toGraveWithBlock g b) = true
          rw [gwbMatches_toGraveWithBlock]
          exact h
        rw [hsame]
      · rw [if_neg h]
        have hnil : ((blocks.filter (fun b => g.block_id == b.id)).map
            (toGraveWithBlock g)).filter (gwbMatches search block_id) = [] := by
          rw [List.filter_map]
          have : (blocks.filter (fun b => g.block_id == b.id)).filter
              (gwbMatches search block_id ∘ toGraveWithBlock g) = [] := by
            apply List.filter_eq_nil_iff.mpr
            intro b _
            show ¬gwbMatches search block_id (toGraveWithBlock g b) = true
            rw [gwbMatches_toGraveWithBlock]
            exact h
          rw [this]
          rfl
        rw [hnil, List.nil_append]

/-- C5: under referential integrity between graves and blocks (each grave's
`block_id` names exactly one block), `count_graves` with fixed filters
returns the length of the full unpaginated listing (`get_graves` with no
limit), and concatenating `get_graves` over consecutive pages of size `L`
that cover the whole range reproduces exactly that full listing. -/
theorem count_pagination_spec (db : DB) (search : Option String) (block_id : Option Int)
    (h1 : ∀ g ∈ db.graves, (db.blocks.filter (fun b => g.block_id == b.id)).length = 1) :
    count_graves db search block_id
      = ((get_graves db search block_id (-1) 0).length : Int) ∧
    ∀ (L n : Nat), 0 < L →
      (get_graves db search block_id (-1) 0).length ≤ L * n →
      (List.range n).flatMap
          (fun i => get_graves db search block_id (L : Int) ((L * i : Nat) : Int))
        = get_graves db search block_id (-1) 0 := by
  have hfull : get_graves db search block_id (-1) 0
      = sortBy (fun a b => decide (b.created_at ≤ a.created_at))
          ((db.graves.flatMap (fun g => (db.blocks.filter (fun b => g.block_id == b.id)).map
              (toGraveWithBlock g))).filter (gwbMatches search block_id)) := by
    unfold get_graves
    rfl
  have hlen : (get_graves db search block_id (-1) 0).length
      = (db.graves.filter (graveMatches search block_id)).length := by
    rw [hfull, (sortBy_perm _ _).length_eq, filter_join_graves, List.length_flatMap]
    have hone : List.map (List.length ∘ fun g =>
          (db.blocks.filter (fun b => g.block_id == b.id)).map (toGraveWithBlock g))
          (db.graves.filter (graveMatches search block_id))
        = List.map (fun _ => 1) (db.graves.filter (graveMatches search block_id)) := by
      apply List.map_congr_left
      intro g hg
      have hg1 := h1 g (List.mem_filter.mp hg).1
      simp [hg1]
    rw [hone]
    simp
  constructor
  · unfold count_graves
    rw [hlen]
  · intro L n hL hcover
    have hpage : ∀ i : Nat, get_graves db search block_id (L : Int) ((L * i : Nat) : Int)
        = ((get_graves db search block_id (-1) 0).drop (L * i)).take L := by
      intro i
      rw [hfull]
      unfold get_graves
      rw [if_neg (by omega)]
      rw [Int.toNat_natCast, Int.toNat_natCast]
    have hkey : ∀ (F : List GraveWithBlock) (m : Nat),
        (List.range m).flatMap (fun i => (F.drop (L * i)).take L) = F.take (L * m) := by
      intro F m
      induction m with
      | zero => simp
      | succ k ih =>
          rw [List.range_succ, List.flatMap_append, ih]
          simp only [List.flatMap_cons, List.flatMap_nil, List.append_nil]
          rw [Nat.mul_succ, List.take_add]
    calc (List.range n).flatMap
          (fun i => get_graves db search block_id (L : Int) ((L * i : Nat) : Int))
        = (List.range n).flatMap
            (fun i => ((get_graves db search block_id (-1) 0).drop (L * i)).take L) := by
          simp only [hpage]
      _ = (get_graves db search block_id (-1) 0).take (L * n) := hkey _ n
      _ = get_graves db search block_id (-1) 0 := List.take_of_length_le hcover

/-- Witness for C5 on a two-grave state: the count matches the full listing
and two pages of size one reproduce it. -/
theorem count_pagination_witness :
    count_graves dbPage none none = ((get_graves dbPage none none (-1) 0).length : Int) ∧
    (List.range 2).flatMap
        (fun i => get_graves dbPage none none ((1 : Nat) : Int) ((1 * i : Nat) : Int))
      = get_graves dbPage none none (-1) 0 := by
  have h := count_pagination_spec dbPage none none (by decide)
  have hc : count_graves dbPage none none = 2 := by decide
  have hlen2 : (get_graves dbPage none none (-1) 0).length ≤ 1 * 2 := by
    have hcl := h.1
    rw [hc] at hcl
    omega
  exact ⟨h.1, h.2 1 2 (by decide) hlen2⟩

-- Helper lemmas for the heir bulk replacement.

theorem update_grave_heirs_foldl_heirs (gid : Int) :
    ∀ (L : List CreateHeirRequest) (db : DB),
      (L.foldl (fun d r => (create_heir d { r with grave_id := gid }).1) db).heirs
        = db.heirs ++ mkHeirRows db.nextHeirId db.now gid L
  | [], db => by simp [mkHeirRows]
  | r :: rs, db => by
      rw [List.foldl_cons, update_grave_heirs_foldl_heirs gid rs]
      simp [create_heir, mkHeirRows]

theorem mkHeirRows_map_stored (now : String) (gid : Int) :
    ∀ (nid : Int) (L : List CreateHeirRequest),
      (mkHeirRows nid now gid L).map heirStoredData = L.map (normalizeHeirReq gid)
  | _, [] => rfl
  | nid, r :: rs => by
      simp only [mkHeirRows, List.map_cons]
      rw [mkHeirRows_map_stored now gid (nid + 1) rs]
      rfl

theorem mkHeirRows_grave_id (now : String) (gid : Int) :
    ∀ (nid : Int) (L : List CreateHeirRequest) (h : Heir),
      h ∈ mkHeirRows nid now gid L → h.grave_id = gid
  | _, [], _, hm => by simp [mkHeirRows] at hm
  | nid, r :: rs, h, hm => by
      rcases List.mem_cons.mp hm with rfl | hm
      · rfl
      · exact mkHeirRows_grave_id now gid (nid + 1) rs h hm

theorem replace_heirs_listed (db : DB) (gid : Int) (L : List CreateHeirRequest) :
    ((get_heirs_by_grave (update_grave_heirs db gid L) gid).map heirStoredData).Perm
      (L.map (normalizeHeirReq gid)) := by
  have hheirs : (update_grave_heirs db gid L).heirs
      = db.heirs.filter (fun h => !(h.grave_id == gid)) ++ mkHeirRows db.nextHeirId db.now gid L := by
    unfold update_grave_heirs
    rw [update_grave_heirs_foldl_heirs]
    rfl
  have hfilter : (update_grave_heirs db gid L).heirs.filter (fun h => h.grave_id == gid)
      = mkHeirRows db.nextHeirId db.now gid L := by
    rw [hheirs, List.filter_append]
    have h1 : (db.heirs.filter (fun h => !(h.grave_id == gid))).filter
        (fun h => h.grave_id == gid) = [] := by
      rw [List.filter_filter]
      apply List.filter_eq_nil_iff.mpr
      intro a _
      cases hb : a.grave_id == gid <;> simp [hb]
    have h2 : (mkHeirRows db.nextHeirId db.now gid L).filter (fun h => h.grave_id == gid)
        = mkHeirRows db.nextHeirId db.now gid L := by
      apply List.filter_eq_self.mpr
      intro a ha
      simp [mkHeirRows_grave_id db.now gid db.nextHeirId L a ha]
    rw [h1, h2, List.nil_append]
  unfold get_heirs_by_grave
  rw [hfilter]
  have hperm := (sortBy_perm (fun a b => decide (a.order_number ≤ b.order_number))
    (mkHeirRows db.nextHeirId db.now gid L)).map heirStoredData
  rw [mkHeirRows_map_stored] at hperm
  exact hperm

/-- C7: `update_grave_heirs` replaces the heirs of the grave by the given
list - after one (and in particular after two successive) replacement, the
heirs listed for the grave carry exactly the data of the last list, each
with `grave_id` forced to the target grave (and optional text fields
defaulted to the empty string as `create_heir` stores them). -/
theorem replace_heirs_spec (db : DB) (gid : Int) (L1 L2 : List CreateHeirRequest) :
    ((get_heirs_by_grave (update_grave_heirs db gid L2) gid).map heirStoredData).Perm
      (L2.map (normalizeHeirReq gid)) ∧
    ((get_heirs_by_grave (update_grave_heirs (update_grave_heirs db gid L1) gid L2) gid).map
        heirStoredData).Perm (L2.map (normalizeHeirReq gid)) :=
  ⟨replace_heirs_listed db gid L2,
   replace_heirs_listed (update_grave_heirs db gid L1) gid L2⟩

/-- Witness for C4: exporting the two-payment state with no explicit range
yields a start year that is an observed payment year and bounds
`2022 ≤ end_year`, `start_year ≤ 2024`. -/
theorem export_year_range_witness :
    (export_graves dbExport none none none none).start_year
        ∈ exportYears (get_all_graves_with_heirs dbExport none none) ∧
    (export_graves dbExport none none none none).start_year ≤ 2024 ∧
    2022 ≤ (export_graves dbExport none none none none).end_year := by
  have h := (export_year_range_spec dbExport none none none none (Or.inl rfl)).2 (by decide)
  exact ⟨h.1, h.2.1 2024 (by decide), h.2.2.2 2022 (by decide)⟩

end Astana
